import Mathlib

/-!
Shallow embedding of `src/url_loader.py` (class `URLLoader`) and of the parts
of its external collaborators that the class observes:

* `urlparse` models CPython `urllib.parse.urlsplit`/`urlparse` restricted to
  the two components `is_valid_url` reads (`scheme` and `netloc`): leading
  WHATWG C0-control-or-space stripping, removal of the unsafe bytes
  tab/CR/LF, scheme recognition (first `:` preceded by an ASCII letter and
  scheme characters, the scheme being lowercased), netloc extraction after
  `//` up to the first `/`, `?` or `#`, and the mismatched-bracket
  `ValueError` (`Invalid IPv6 URL`).  The deeper bracketed-host validation of
  newer CPython versions is omitted; it only turns further exotic inputs into
  the error branch, which `is_valid_url` maps to `false` anyway.
* `pyLower` models `str.lower` on ASCII letters (the only letters a scheme or
  a `.csv` extension comparison can involve).
* The filesystem and the CSV reader are modelled by a function
  `FS : String → FileResult`: a path is `missing` (so `os.path.exists` is
  false), raises on open/read/parse (`readError`), or yields the data rows
  that `csv.DictReader` would produce, each row being the list of its cell
  values in column order (`row.values()`).

State of a `URLLoader` is its `urls : List String`; the methods become
functions over that state.  `load_urls_from_csv` returns the pair of the
resulting state and the Python result (`Except` models raised exceptions,
with the three kinds `ValueError` on an empty path, `ValueError` on a wrong
extension — both `invalidArgument` — `FileNotFoundError` = `notFound`, and
the wrapped `Exception` = `loadFailure`).
-/

namespace UrlLoaderModel

/-- ASCII model of Python `str.lower` on one character. -/
def pyLower (c : Char) : Char :=
  if 65 ≤ c.toNat ∧ c.toNat ≤ 90 then Char.ofNat (c.toNat + 32) else c

/-- Characters stripped from the left of a URL by CPython `urlsplit`
(`_WHATWG_C0_CONTROL_OR_SPACE`: code points `0x00`–`0x20`). -/
def isC0OrSpace (c : Char) : Bool :=
  c.toNat ≤ 32

/-- CPython `_UNSAFE_URL_BYTES_TO_REMOVE`: tab, CR and LF are deleted from
the URL before parsing. -/
def isUnsafeUrlByte (c : Char) : Bool :=
  c = '\t' || c = '\r' || c = '\n'

/-- CPython `scheme_chars`: ASCII letters, digits, `+`, `-`, `.`. -/
def isSchemeChar (c : Char) : Bool :=
  ('a' ≤ c && c ≤ 'z') || ('A' ≤ c && c ≤ 'Z') || ('0' ≤ c && c ≤ '9') ||
    c = '+' || c = '-' || c = '.'

/-- `url[0].isascii() and url[0].isalpha()`: an ASCII letter. -/
def isAsciiAlpha (c : Char) : Bool :=
  ('a' ≤ c && c ≤ 'z') || ('A' ≤ c && c ≤ 'Z')

def headIsAlpha : List Char → Bool
  | [] => false
  | c :: _ => isAsciiAlpha c

/-- Scheme recognition of CPython `urlsplit`: if the first `:` sits at a
positive index and everything before it is scheme characters starting with an
ASCII letter, the scheme is that prefix lowercased and the rest follows the
`:`; otherwise the scheme is empty and the URL is unchanged. -/
def splitScheme (l : List Char) : List Char × List Char :=
  match l.findIdx? (fun c => c = ':') with
  | some i =>
    if 0 < i ∧ headIsAlpha l ∧ (l.take i).all isSchemeChar then
      ((l.take i).map pyLower, l.drop (i + 1))
    else ([], l)
  | none => ([], l)

/-- A character ending the netloc in CPython `_splitnetloc`. -/
def isNetlocDelim (c : Char) : Bool :=
  c = '/' || c = '?' || c = '#'

/-- The two components of a parsed URL that `is_valid_url` reads.  CPython's
`SplitResult` also carries path, query and fragment; they are unobserved
here. -/
structure ParseResult where
  scheme : String
  netloc : String
deriving DecidableEq

/-- The URL text after CPython's initial scrubbing: leading
control-or-space characters stripped, unsafe bytes removed. -/
def scrubbed (s : String) : List Char :=
  (s.data.dropWhile isC0OrSpace).filter (fun c => !isUnsafeUrlByte c)

/-- `_splitnetloc`: the netloc is everything after `//` up to the first
delimiter. -/
def netlocChars (tail : List Char) : List Char :=
  tail.takeWhile (fun c => !isNetlocDelim c)

/-- Model of `urllib.parse.urlparse` restricted to scheme and netloc; the
`error` branch models a raised `ValueError`. -/
def urlparse (s : String) : Except String ParseResult :=
  match (splitScheme (scrubbed s)).2 with
  | '/' :: '/' :: tail =>
    if ('[' ∈ netlocChars tail ∧ ']' ∉ netlocChars tail) ∨
        (']' ∈ netlocChars tail ∧ '[' ∉ netlocChars tail) then
      Except.error "Invalid IPv6 URL"
    else
      Except.ok ⟨String.mk (splitScheme (scrubbed s)).1, String.mk (netlocChars tail)⟩
  | _ => Except.ok ⟨String.mk (splitScheme (scrubbed s)).1, ""⟩

/-- `URLLoader.is_valid_url`.  The Python body returns the truthiness of
`result.scheme in ['http', 'https'] and result.netloc` (so a non-empty netloc
string stands for true), and its bare `except:` turns any parse error into
`False`; the model returns that truth value as a `Bool`. -/
def is_valid_url (s : String) : Bool :=
  match urlparse s with
  | Except.ok r => (r.scheme == "http" || r.scheme == "https") && r.netloc != ""
  | Except.error _ => false

/-- Index of the last occurrence of `c` in `l` (CPython `str.rfind`, with
`none` for `-1`). -/
def rfindIdx (l : List Char) (c : Char) : Option Nat :=
  (l.reverse.findIdx? (fun d => d = c)).map (fun i => l.length - 1 - i)

/-- Model of `os.path.splitext` for POSIX paths: split at the last dot of the
last component, unless every character of that component before the dot is
itself a dot (leading dots never start an extension). -/
def splitext (p : String) : String × String :=
  let l := p.data
  match rfindIdx l '.' with
  | none => (p, "")
  | some d =>
    let base :=
      match rfindIdx l '/' with
      | none => 0
      | some s0 => s0 + 1
    if base ≤ d then
      if ((l.drop base).take (d - base)).all (fun c => c = '.') then (p, "")
      else (String.mk (l.take d), String.mk (l.drop d))
    else (p, "")

/-- `file_path.lower().endswith('.csv')`. -/
def lowerEndsCsv (p : String) : Bool :=
  List.isSuffixOf ['.', 'c', 's', 'v'] (p.data.map pyLower)

/-- The raised exceptions of `load_urls_from_csv`, by kind:
`invalidArgument` = `ValueError`, `notFound` = `FileNotFoundError`,
`loadFailure` = the wrapping `Exception("Error reading CSV file: ...")`. -/
inductive ErrorKind where
  | invalidArgument
  | notFound
  | loadFailure
deriving DecidableEq

structure LoadError where
  kind : ErrorKind
  msg : String
deriving DecidableEq

/-- What the filesystem and CSV collaborators yield for one path:
the path does not exist, or opening/reading/CSV-parsing raises, or the
`csv.DictReader` produces these data rows (each row the list of its cell
values in column order, i.e. `row.values()`). -/
inductive FileResult where
  | missing
  | readError (msg : String)
  | rows (rs : List (List String))
deriving DecidableEq

abbrev FS := String → FileResult

/-- `self.urls` right after `URLLoader.__init__`. -/
def initialUrls : List String := []

/-- The cells the scan appends to `results`: every cell of every row, in row
then column order, that passes `is_valid_url`. -/
def extractValid (rs : List (List String)) : List String :=
  (rs.map (fun row => row.filter is_valid_url)).flatten

/-- `URLLoader.load_urls_from_csv`, as a function of the collaborators `fs`,
the current state `urls` and the argument `file_path`.  Returns the new state
paired with the Python outcome (returned list or raised exception).  The
structure mirrors the source: empty-path check, `os.path.exists` check,
extension check, then `self.urls = []` followed by the guarded read — so a
read failure after validation leaves the state already cleared, while the
three validation failures leave it untouched.  `list(set(results))` is
modelled by `List.dedup` (same elements, no duplicates; CPython's set
iteration order is unspecified and the model fixes one such order). -/
def load_urls_from_csv (fs : FS) (urls : List String) (file_path : String) :
    List String × Except LoadError (List String) :=
  if file_path = "" then
    (urls, Except.error ⟨ErrorKind.invalidArgument, "CSV file path is required"⟩)
  else
    match fs file_path with
    | FileResult.missing =>
      (urls, Except.error ⟨ErrorKind.notFound, "CSV file not found: " ++ file_path⟩)
    | FileResult.readError msg =>
      if lowerEndsCsv file_path then
        ([], Except.error ⟨ErrorKind.loadFailure, "Error reading CSV file: " ++ msg⟩)
      else
        (urls, Except.error ⟨ErrorKind.invalidArgument,
          "Invalid file type. Expected .csv, got " ++ (splitext file_path).2⟩)
    | FileResult.rows rs =>
      if lowerEndsCsv file_path then
        let final := (extractValid rs).dedup
        (final, Except.ok final)
      else
        (urls, Except.error ⟨ErrorKind.invalidArgument,
          "Invalid file type. Expected .csv, got " ++ (splitext file_path).2⟩)

/-- `URLLoader.get_urls`. -/
def get_urls (urls : List String) : List String := urls

/-- `URLLoader.get_url_count`. -/
def get_url_count (urls : List String) : Nat := urls.length

/-- `URLLoader.clear_urls`. -/
def clear_urls (_ : List String) : List String := []

/-- The data-model invariant of §3: every element of `urls` is a valid URL
and the elements are pairwise distinct under exact string equality. -/
def urlsInvariant (urls : List String) : Prop :=
  (∀ u ∈ urls, is_valid_url u = true) ∧ urls.Nodup

instance (urls : List String) : Decidable (urlsInvariant urls) := by
  unfold urlsInvariant; infer_instance

/-- The extension-mismatch error value. -/
def extError (p : String) : LoadError :=
  ⟨ErrorKind.invalidArgument, "Invalid file type. Expected .csv, got " ++ (splitext p).2⟩

/-- A small concrete filesystem used to instantiate the theorems. -/
def fsDemo : FS := fun p =>
  if p = "good.csv" then FileResult.rows [["https://a.com", "notaurl"]]
  else if p = "bad.csv" then FileResult.readError "boom"
  else if p = "empty.csv" then FileResult.rows []
  else if p = "data.txt" then FileResult.rows [["https://x.com"]]
  else FileResult.missing

/-- The two-column, two-data-row CSV of §8's concrete example. -/
def fsTwoRows : FS := fun p =>
  if p = "input.csv" then
    FileResult.rows [["https://a.com", "notaurl"], ["https://a.com", "ftp://b.com"]]
  else FileResult.missing

/-! Helper lemmas shared by the claim theorems. -/

theorem toNat_charOfNat (n : Nat) (h : n.isValidChar) : (Char.ofNat n).toNat = n := by
  unfold Char.ofNat
  rw [dif_pos h]
  rfl

theorem pyLower_pyLower (c : Char) : pyLower (pyLower c) = pyLower c := by
  by_cases h : 65 ≤ c.toNat ∧ c.toNat ≤ 90
  · have hv : (c.toNat + 32).isValidChar := Or.inl (by omega)
    have h1 : pyLower c = Char.ofNat (c.toNat + 32) := by
      unfold pyLower; rw [if_pos h]
    rw [h1]
    unfold pyLower
    rw [toNat_charOfNat _ hv]
    rw [if_neg (by omega)]
  · have h1 : pyLower c = c := by
      unfold pyLower; rw [if_neg h]
    rw [h1, h1]

theorem map_pyLower_idem (l : List Char) : (l.map pyLower).map pyLower = l.map pyLower := by
  induction l with
  | nil => rfl
  | cons c t ih => simp [pyLower_pyLower, ih]

theorem splitScheme_fst_lower (l : List Char) :
    ((splitScheme l).1).map pyLower = (splitScheme l).1 := by
  unfold splitScheme
  cases h : l.findIdx? (fun c => c = ':') with
  | none => rfl
  | some i =>
    dsimp only
    by_cases hc : 0 < i ∧ headIsAlpha l = true ∧ (l.take i).all isSchemeChar = true
    · rw [if_pos hc]
      exact map_pyLower_idem _
    · rw [if_neg hc]
      rfl

theorem mem_extractValid (u : String) (rs : List (List String)) :
    u ∈ extractValid rs ↔ (∃ row ∈ rs, u ∈ row) ∧ is_valid_url u = true := by
  unfold extractValid
  simp only [List.mem_flatten, List.mem_map]
  constructor
  · rintro ⟨l, ⟨row, hrow, rfl⟩, hu⟩
    rcases List.mem_filter.mp hu with ⟨hur, hv⟩
    exact ⟨⟨row, hrow, hur⟩, hv⟩
  · rintro ⟨⟨row, hrow, hu⟩, hv⟩
    exact ⟨row.filter is_valid_url, ⟨row, hrow, rfl⟩, List.mem_filter.mpr ⟨hu, hv⟩⟩

/-- Exhaustive case analysis of one `load_urls_from_csv` call, matching the
source's control flow. -/
theorem load_urls_cases (fs : FS) (st : List String) (p : String) :
    (p = "" ∧ load_urls_from_csv fs st p =
      (st, Except.error ⟨ErrorKind.invalidArgument, "CSV file path is required"⟩)) ∨
    (p ≠ "" ∧ fs p = FileResult.missing ∧ load_urls_from_csv fs st p =
      (st, Except.error ⟨ErrorKind.notFound, "CSV file not found: " ++ p⟩)) ∨
    (p ≠ "" ∧ fs p ≠ FileResult.missing ∧ lowerEndsCsv p = false ∧
      load_urls_from_csv fs st p = (st, Except.error (extError p))) ∨
    (∃ m, p ≠ "" ∧ fs p = FileResult.readError m ∧ lowerEndsCsv p = true ∧
      load_urls_from_csv fs st p =
        ([], Except.error ⟨ErrorKind.loadFailure, "Error reading CSV file: " ++ m⟩)) ∨
    (∃ rs, p ≠ "" ∧ fs p = FileResult.rows rs ∧ lowerEndsCsv p = true ∧
      load_urls_from_csv fs st p =
        ((extractValid rs).dedup, Except.ok ((extractValid rs).dedup))) := by
  by_cases hp : p = ""
  · exact Or.inl ⟨hp, by simp [load_urls_from_csv, hp]⟩
  · cases hfs : fs p with
    | missing =>
      exact Or.inr (Or.inl ⟨hp, rfl, by simp [load_urls_from_csv, hp, hfs]⟩)
    | readError m =>
      by_cases hext : lowerEndsCsv p
      · exact Or.inr (Or.inr (Or.inr (Or.inl
          ⟨m, hp, rfl, hext, by simp [load_urls_from_csv, hp, hfs, hext]⟩)))
      · refine Or.inr (Or.inr (Or.inl ⟨hp, by simp, by simpa using hext, ?_⟩))
        simp [load_urls_from_csv, hp, hfs, hext, extError]
    | rows rs =>
      by_cases hext : lowerEndsCsv p
      · exact Or.inr (Or.inr (Or.inr (Or.inr
          ⟨rs, hp, rfl, hext, by simp [load_urls_from_csv, hp, hfs, hext]⟩)))
      · refine Or.inr (Or.inr (Or.inl ⟨hp, by simp, by simpa using hext, ?_⟩))
        simp [load_urls_from_csv, hp, hfs, hext, extError]

/-- A successful call comes from the rows branch and returns the deduplicated
valid cells, which also become the new state. -/
theorem load_ok_shape (fs : FS) (st : List String) (p : String) (v : List String)
    (h : (load_urls_from_csv fs st p).2 = Except.ok v) :
    ∃ rs, fs p = FileResult.rows rs ∧ v = (extractValid rs).dedup ∧
      (load_urls_from_csv fs st p).1 = v := by
  rcases load_urls_cases fs st p with ⟨_, hl⟩ | ⟨_, _, hl⟩ | ⟨_, _, _, hl⟩ |
    ⟨m, _, _, _, hl⟩ | ⟨rs, _, hfs, _, hl⟩
  · rw [hl] at h; exact absurd h (by simp)
  · rw [hl] at h; exact absurd h (by simp)
  · rw [hl] at h; exact absurd h (by simp)
  · rw [hl] at h; exact absurd h (by simp)
  · rw [hl] at h
    have h2 : Except.ok ((extractValid rs).dedup) = Except.ok v := h
    have h3 : (extractValid rs).dedup = v := by injection h2
    exact ⟨rs, hfs, h3.symm, by rw [hl]; exact h3⟩

theorem urlsInvariant_nil : urlsInvariant [] :=
  ⟨by simp, List.nodup_nil⟩

theorem dedup_extract_invariant (rs : List (List String)) :
    urlsInvariant ((extractValid rs).dedup) := by
  constructor
  · intro u hu
    exact ((mem_extractValid u rs).mp (List.mem_dedup.mp hu)).2
  · exact List.nodup_dedup _

/-! The claims. -/

/-- C1 (counterexample): with a prior state of one URL, a load that fails
inside the read (kind `LoadFailure`) leaves `urls` empty — not "exactly as it
was before the call" — because the source clears `self.urls` before the
`try` block. -/
theorem C1_load_failure_clears_state :
    (load_urls_from_csv fsDemo ["https://a.com"] "bad.csv").2 =
      Except.error ⟨ErrorKind.loadFailure, "Error reading CSV file: boom"⟩ ∧
    (load_urls_from_csv fsDemo ["https://a.com"] "bad.csv").1 = [] ∧
    ([] : List String) ≠ ["https://a.com"] := by
  refine ⟨rfl, rfl, by simp⟩

/-- C1 (amended): a load failing with kind `InvalidArgument` or `NotFound`
(the three validations) leaves `urls` exactly as it was, while a load failing
with kind `LoadFailure` (I/O or CSV parse failure after validation) leaves
`urls` reset to the empty list. -/
theorem C1_failed_load_state (fs : FS) (st : List String) (p : String) (e : LoadError)
    (h : (load_urls_from_csv fs st p).2 = Except.error e) :
    ((e.kind = ErrorKind.invalidArgument ∨ e.kind = ErrorKind.notFound) →
      (load_urls_from_csv fs st p).1 = st) ∧
    (e.kind = ErrorKind.loadFailure → (load_urls_from_csv fs st p).1 = []) := by
  rcases load_urls_cases fs st p with ⟨_, hl⟩ | ⟨_, _, hl⟩ | ⟨_, _, _, hl⟩ |
    ⟨m, _, _, _, hl⟩ | ⟨rs, _, _, _, hl⟩
  · rw [hl] at h ⊢
    have he : (⟨ErrorKind.invalidArgument, "CSV file path is required"⟩ : LoadError) = e := by
      exact Except.error.inj h
    rw [← he]
    exact ⟨fun _ => rfl, fun hk => by cases hk⟩
  · rw [hl] at h ⊢
    have he : (⟨ErrorKind.notFound, "CSV file not found: " ++ p⟩ : LoadError) = e :=
      Except.error.inj h
    rw [← he]
    exact ⟨fun _ => rfl, fun hk => by cases hk⟩
  · rw [hl] at h ⊢
    have he : extError p = e := Except.error.inj h
    rw [← he]
    exact ⟨fun _ => rfl, fun hk => by cases hk⟩
  · rw [hl] at h ⊢
    have he : (⟨ErrorKind.loadFailure, "Error reading CSV file: " ++ m⟩ : LoadError) = e :=
      Except.error.inj h
    rw [← he]
    exact ⟨fun hk => absurd hk (by simp), fun _ => rfl⟩
  · rw [hl] at h
    exact absurd h (by simp)

theorem C1_failed_load_state_witness :
    (load_urls_from_csv fsDemo ["https://a.com"] "nope.csv").1 = ["https://a.com"] ∧
    (load_urls_from_csv fsDemo ["https://a.com"] "bad.csv").1 = [] := by
  constructor
  · exact (C1_failed_load_state fsDemo ["https://a.com"] "nope.csv"
      ⟨ErrorKind.notFound, "CSV file not found: nope.csv"⟩ rfl).1 (Or.inr rfl)
  · exact (C1_failed_load_state fsDemo ["https://a.com"] "bad.csv"
      ⟨ErrorKind.loadFailure, "Error reading CSV file: boom"⟩ rfl).2 rfl

/-- C2: the constructed state satisfies the invariant (all elements valid
URLs, pairwise distinct), `clear_urls` and `load_urls_from_csv` preserve it,
and a successful load returns a sequence of valid URLs with no duplicate
strings. -/
theorem C2_urls_invariant :
    urlsInvariant initialUrls ∧
    (∀ st, urlsInvariant (clear_urls st)) ∧
    (∀ (fs : FS) st p, urlsInvariant st →
      urlsInvariant (load_urls_from_csv fs st p).1) ∧
    (∀ (fs : FS) st p v, (load_urls_from_csv fs st p).2 = Except.ok v →
      (∀ u ∈ v, is_valid_url u = true) ∧ v.Nodup) := by
  refine ⟨urlsInvariant_nil, fun st => urlsInvariant_nil, ?_, ?_⟩
  · intro fs st p hst
    rcases load_urls_cases fs st p with ⟨_, hl⟩ | ⟨_, _, hl⟩ | ⟨_, _, _, hl⟩ |
      ⟨m, _, _, _, hl⟩ | ⟨rs, _, _, _, hl⟩
    · rw [hl]; exact hst
    · rw [hl]; exact hst
    · rw [hl]; exact hst
    · rw [hl]; exact urlsInvariant_nil
    · rw [hl]; exact dedup_extract_invariant rs
  · intro fs st p v h
    rcases load_ok_shape fs st p v h with ⟨rs, _, hv, _⟩
    rw [hv]
    exact dedup_extract_invariant rs

theorem C2_urls_invariant_witness :
    urlsInvariant (load_urls_from_csv fsDemo ["https://b.com"] "good.csv").1 :=
  C2_urls_invariant.2.2.1 fsDemo ["https://b.com"] "good.csv" (by decide)

/-- C3: on the CSV with data rows `["https://a.com", "notaurl"]` and
`["https://a.com", "ftp://b.com"]`, the load returns exactly the one-element
sequence `["https://a.com"]` (the non-URL cell and the `ftp` cell are
excluded, the duplicate collapses), and the state equals it. -/
theorem C3_two_row_example :
    (load_urls_from_csv fsTwoRows [] "input.csv").2 = Except.ok ["https://a.com"] ∧
    (load_urls_from_csv fsTwoRows [] "input.csv").1 = ["https://a.com"] := by
  exact ⟨rfl, rfl⟩

theorem urlparse_ok_scheme (s : String) (r : ParseResult)
    (h : urlparse s = Except.ok r) :
    r.scheme.data.map pyLower = r.scheme.data := by
  unfold urlparse at h
  split at h
  · split at h
    · exact absurd h (by simp)
    · have hr := Except.ok.inj h
      rw [← hr]
      exact splitScheme_fst_lower _
  · have hr := Except.ok.inj h
    rw [← hr]
    exact splitScheme_fst_lower _

/-- C4 (counterexample): a written scheme in upper case is accepted, not
rejected: `is_valid_url "HTTP://a.com"` is `true`, because `urlparse`
lowercases the scheme before `is_valid_url` compares it. -/
theorem C4_uppercase_scheme_accepted : is_valid_url "HTTP://a.com" = true := by
  decide

/-- C4 (amended): `is_valid_url s` is true iff parsing succeeds, the parsed
scheme is exactly `http` or `https`, and the netloc is non-empty — where the
parsed scheme is the written scheme already lowercased by the parser (it is a
fixed point of lowercasing), so the written scheme is matched
case-insensitively. -/
theorem C4_valid_url_characterization (s : String) :
    (is_valid_url s = true ↔
      ∃ r, urlparse s = Except.ok r ∧
        (r.scheme = "http" ∨ r.scheme = "https") ∧ r.netloc ≠ "") ∧
    (∀ r, urlparse s = Except.ok r → r.scheme.data.map pyLower = r.scheme.data) := by
  refine ⟨?_, fun r hr => urlparse_ok_scheme s r hr⟩
  unfold is_valid_url
  cases hp : urlparse s with
  | ok r =>
    dsimp only
    simp only [Bool.and_eq_true, Bool.or_eq_true, beq_iff_eq, bne_iff_ne,
      Except.ok.injEq]
    constructor
    · rintro ⟨hs, hn⟩
      exact ⟨r, rfl, hs, hn⟩
    · rintro ⟨r2, hr2, hs, hn⟩
      rw [hr2]
      exact ⟨hs, hn⟩
  | error e => simp

theorem C4_valid_url_characterization_witness :
    is_valid_url "HTTPS://b.com" = true ∧
    ("https" : String).data.map pyLower = ("https" : String).data := by
  constructor
  · exact (C4_valid_url_characterization "HTTPS://b.com").1.mpr
      ⟨⟨"https", "b.com"⟩, rfl, Or.inr rfl, by decide⟩
  · exact (C4_valid_url_characterization "HTTPS://b.com").2 ⟨"https", "b.com"⟩ rfl

/-- C5: the three validations run in order, each failing fast: an empty path
gives `InvalidArgument`; a non-empty path naming no existing file gives
`NotFound`; an existing path whose extension is not `.csv` (case-insensitive)
gives `InvalidArgument` naming the extension found by `splitext`, whatever
the file's content is. -/
theorem C5_validation_order (fs : FS) (st : List String) (p : String) :
    (p = "" → (load_urls_from_csv fs st p).2 =
      Except.error ⟨ErrorKind.invalidArgument, "CSV file path is required"⟩) ∧
    (p ≠ "" → fs p = FileResult.missing → (load_urls_from_csv fs st p).2 =
      Except.error ⟨ErrorKind.notFound, "CSV file not found: " ++ p⟩) ∧
    (p ≠ "" → fs p ≠ FileResult.missing → lowerEndsCsv p = false →
      (load_urls_from_csv fs st p).2 = Except.error (extError p)) := by
  refine ⟨fun hp => by simp [load_urls_from_csv, hp],
    fun hp hm => by simp [load_urls_from_csv, hp, hm], fun hp hm hext => ?_⟩
  rcases load_urls_cases fs st p with ⟨h1, hl⟩ | ⟨_, h2, hl⟩ | ⟨_, _, _, hl⟩ |
    ⟨m, _, _, hx, hl⟩ | ⟨rs, _, _, hx, hl⟩
  · exact absurd h1 hp
  · exact absurd h2 hm
  · rw [hl]
  · rw [hx] at hext; exact Bool.noConfusion hext
  · rw [hx] at hext; exact Bool.noConfusion hext

theorem C5_validation_order_witness :
    (load_urls_from_csv fsDemo [] "").2 =
      Except.error ⟨ErrorKind.invalidArgument, "CSV file path is required"⟩ ∧
    (load_urls_from_csv fsDemo [] "nope.csv").2 =
      Except.error ⟨ErrorKind.notFound, "CSV file not found: " ++ "nope.csv"⟩ ∧
    (load_urls_from_csv fsDemo [] "data.txt").2 = Except.error (extError "data.txt") := by
  refine ⟨(C5_validation_order fsDemo [] "").1 rfl, ?_, ?_⟩
  · exact (C5_validation_order fsDemo [] "nope.csv").2.1 (by decide) rfl
  · exact (C5_validation_order fsDemo [] "data.txt").2.2 (by decide) (by decide) (by decide)

theorem extractValid_eq_nil (rs : List (List String))
    (hall : ∀ row ∈ rs, ∀ c ∈ row, is_valid_url c = false) :
    extractValid rs = [] := by
  apply List.eq_nil_iff_forall_not_mem.mpr
  intro u hu
  rcases (mem_extractValid u rs).mp hu with ⟨⟨row, hrow, hur⟩, hv⟩
  rw [hall row hrow u hur] at hv
  cases hv

/-- C6: a successful load replaces `urls` wholesale with the deduplicated
sequence of valid cells, returns that same sequence (so `get_urls` equals the
returned value and `get_url_count` its length), independently of the prior
state; and when no cell is a valid URL the load still succeeds, returning the
empty sequence with count 0. -/
theorem C6_success_replaces (fs : FS) (st : List String) (p : String)
    (rs : List (List String)) (hp : p ≠ "") (hfs : fs p = FileResult.rows rs)
    (hext : lowerEndsCsv p = true) :
    ∃ v, (load_urls_from_csv fs st p).2 = Except.ok v ∧
      (load_urls_from_csv fs st p).1 = v ∧
      get_urls (load_urls_from_csv fs st p).1 = v ∧
      get_url_count (load_urls_from_csv fs st p).1 = v.length ∧
      ((∀ row ∈ rs, ∀ c ∈ row, is_valid_url c = false) → v = []) := by
  refine ⟨(extractValid rs).dedup, ?_, ?_, ?_, ?_, ?_⟩
  · simp [load_urls_from_csv, hp, hfs, hext]
  · simp [load_urls_from_csv, hp, hfs, hext]
  · simp [load_urls_from_csv, hp, hfs, hext, get_urls]
  · simp [load_urls_from_csv, hp, hfs, hext, get_url_count]
  · intro hall
    rw [extractValid_eq_nil rs hall]
    exact List.dedup_nil

theorem C6_success_replaces_witness :
    ∃ v, (load_urls_from_csv fsDemo ["https://old.com"] "good.csv").2 = Except.ok v ∧
      (load_urls_from_csv fsDemo ["https://old.com"] "good.csv").1 = v ∧
      get_urls (load_urls_from_csv fsDemo ["https://old.com"] "good.csv").1 = v ∧
      get_url_count (load_urls_from_csv fsDemo ["https://old.com"] "good.csv").1 = v.length ∧
      ((∀ row ∈ [["https://a.com", "notaurl"]], ∀ c ∈ row, is_valid_url c = false) → v = []) :=
  C6_success_replaces fsDemo ["https://old.com"] "good.csv"
    [["https://a.com", "notaurl"]] (by decide) rfl (by decide)

/-- C7: every parse failure of the underlying URL parser is mapped to
`false` by `is_valid_url`; the predicate never propagates the error. -/
theorem C7_parse_error_to_false (s e : String) (h : urlparse s = Except.error e) :
    is_valid_url s = false := by
  unfold is_valid_url
  rw [h]

theorem C7_parse_error_to_false_witness : is_valid_url "http://[a.com" = false :=
  C7_parse_error_to_false "http://[a.com" "Invalid IPv6 URL" rfl

/-- C8: `clear_urls` empties the state from any state, is idempotent, and
afterwards `get_url_count` is 0 and `get_urls` is empty. -/
theorem C8_clear (st : List String) :
    clear_urls st = [] ∧ clear_urls (clear_urls st) = clear_urls st ∧
    get_url_count (clear_urls st) = 0 ∧ get_urls (clear_urls st) = [] :=
  ⟨rfl, rfl, rfl, rfl⟩

/-- C9: an existing `.csv` file whose content yields no data rows (an empty
file, or a header-only file, both of which make `csv.DictReader` yield
nothing) loads successfully with the empty sequence and count 0; it is never
a `LoadFailure`. -/
theorem C9_no_data_rows (fs : FS) (st : List String) (p : String)
    (hp : p ≠ "") (hfs : fs p = FileResult.rows []) (hext : lowerEndsCsv p = true) :
    (load_urls_from_csv fs st p).2 = Except.ok [] ∧
    (load_urls_from_csv fs st p).1 = [] ∧
    get_url_count (load_urls_from_csv fs st p).1 = 0 := by
  refine ⟨?_, ?_, ?_⟩ <;>
    simp [load_urls_from_csv, hp, hfs, hext, get_url_count, extractValid]

theorem C9_no_data_rows_witness :
    (load_urls_from_csv fsDemo ["https://a.com"] "empty.csv").2 = Except.ok [] ∧
    (load_urls_from_csv fsDemo ["https://a.com"] "empty.csv").1 = [] ∧
    get_url_count (load_urls_from_csv fsDemo ["https://a.com"] "empty.csv").1 = 0 :=
  C9_no_data_rows fsDemo ["https://a.com"] "empty.csv" (by decide) rfl (by decide)

/-- C10: the sequence a successful load returns is a function of the parsed
rows alone: two invocations over the same rows (whatever the paths, the
filesystems and the prior states) return sequences equal as sets with equal
length, and membership is exactly "appears in some cell and is a valid
URL". -/
theorem C10_load_deterministic (fs1 fs2 : FS) (st1 st2 : List String)
    (p1 p2 : String) (rs : List (List String)) (v1 v2 : List String)
    (hf1 : fs1 p1 = FileResult.rows rs) (hf2 : fs2 p2 = FileResult.rows rs)
    (h1 : (load_urls_from_csv fs1 st1 p1).2 = Except.ok v1)
    (h2 : (load_urls_from_csv fs2 st2 p2).2 = Except.ok v2) :
    (∀ s, s ∈ v1 ↔ s ∈ v2) ∧ v1.length = v2.length ∧
    (∀ s, s ∈ v1 ↔ ((∃ row ∈ rs, s ∈ row) ∧ is_valid_url s = true)) := by
  rcases load_ok_shape _ _ _ _ h1 with ⟨rsa, hfa, hva, _⟩
  rcases load_ok_shape _ _ _ _ h2 with ⟨rsb, hfb, hvb, _⟩
  rw [hf1] at hfa
  rw [hf2] at hfb
  have hra : rsa = rs := (FileResult.rows.inj hfa).symm
  have hrb : rsb = rs := (FileResult.rows.inj hfb).symm
  rw [hra] at hva
  rw [hrb] at hvb
  subst hva hvb
  exact ⟨fun s => Iff.rfl, rfl,
    fun s => (List.mem_dedup).trans (mem_extractValid s rs)⟩

theorem C10_load_deterministic_witness :
    (∀ s, s ∈ ["https://a.com"] ↔ s ∈ ["https://a.com"]) ∧
    (["https://a.com"] : List String).length = (["https://a.com"] : List String).length ∧
    (∀ s, s ∈ ["https://a.com"] ↔
      ((∃ row ∈ [["https://a.com", "notaurl"]], s ∈ row) ∧ is_valid_url s = true)) :=
  C10_load_deterministic fsDemo fsDemo [] ["https://x.com"] "good.csv" "good.csv"
    [["https://a.com", "notaurl"]] ["https://a.com"] ["https://a.com"] rfl rfl rfl rfl

end UrlLoaderModel

